import Mathlib

/-!
Verification of the goodplace-map synchronization engine against its
natural-language specification.

The development shallowly embeds the TypeScript source:
* JS numbers that flow through these code paths are either finite decimal
  values (modelled as `JsNumber`, a decimal mantissa/exponent pair) or
  `NaN`; a possibly-NaN value is `Option JsNumber` with `none` standing
  for `NaN`.  (`parseFloat`/`parseInt` return `NaN` exactly when our
  models return `none`; the special `Infinity` literals, which never
  occur in the data handled here, are not modelled.)  None of the code
  under verification compares or computes with coordinate numbers — it
  only moves them — so the non-canonical representation is harmless.
* The D1/SQLite store is a record of lists of typed rows, one list per
  table; drizzle queries become list operations.
* `crypto.randomUUID()` and `new Date()` are determinised by passing the
  fresh identifier / current time as explicit arguments.
-/

/-- Fold a list of decimal digit characters into the natural number they
denote (most significant first). -/
def digitsToNat (ds : List Char) : Nat :=
  ds.foldl (fun n c => 10 * n + (c.toNat - '0'.toNat)) 0

/-- Strip leading and trailing whitespace from a character list
(JS `String.prototype.trim`, kernel-reducible). -/
def trimChars (cs : List Char) : List Char :=
  ((cs.dropWhile Char.isWhitespace).reverse.dropWhile Char.isWhitespace).reverse

/-- Split a character list on `','` (JS `String.prototype.split(',')`,
kernel-reducible): `"a,b"` gives `["a", "b"]`, `""` gives `[""]`. -/
def splitOnCommaChars : List Char → List (List Char)
  | [] => [[]]
  | c :: rest =>
    if c = ',' then [] :: splitOnCommaChars rest
    else
      match splitOnCommaChars rest with
      | h :: t => (c :: h) :: t
      | [] => [[c]]

/-- A finite JS number in decimal scientific form: the denoted value is
`mantissa * 10 ^ exp10`.  The representation is the one the decimal
parser produces; the synchronization code never computes with or
compares these numbers, it only stores and serves them. -/
structure JsNumber where
  mantissa : ℤ
  exp10 : ℤ
deriving Repr, DecidableEq

/-- Model of JavaScript `parseFloat` restricted to (signed) decimal
literals with an optional fractional part and optional exponent, with
JS's tolerance for trailing garbage.  Returns `none` exactly when JS
returns `NaN` (no digit could be consumed). -/
def jsParseFloatChars (cs0 : List Char) : Option JsNumber :=
  let cs := cs0.dropWhile Char.isWhitespace
  let signAndRest : ℤ × List Char :=
    match cs with
    | '-' :: rest => (-1, rest)
    | '+' :: rest => (1, rest)
    | _ => (1, cs)
  let sign := signAndRest.1
  let cs := signAndRest.2
  let intDigits := cs.takeWhile Char.isDigit
  let cs1 := cs.dropWhile Char.isDigit
  let fracAndRest : List Char × List Char :=
    match cs1 with
    | '.' :: rest => (rest.takeWhile Char.isDigit, rest.dropWhile Char.isDigit)
    | _ => ([], cs1)
  let fracDigits := fracAndRest.1
  let cs2 := fracAndRest.2
  if intDigits.isEmpty ∧ fracDigits.isEmpty then none
  else
    let mant : ℤ :=
      sign * ((digitsToNat intDigits : ℤ) * (10 : ℤ) ^ fracDigits.length + (digitsToNat fracDigits : ℤ))
    let exp : ℤ :=
      match cs2 with
      | c :: rest =>
        if c = 'e' ∨ c = 'E' then
          let esignAndRest : ℤ × List Char :=
            match rest with
            | '-' :: r => (-1, r)
            | '+' :: r => (1, r)
            | _ => (1, rest)
          let eds := esignAndRest.2.takeWhile Char.isDigit
          if eds.isEmpty then 0 else esignAndRest.1 * (digitsToNat eds : ℤ)
        else 0
      | [] => 0
    some ⟨mant, exp - (fracDigits.length : ℤ)⟩

/-- `parseFloat` on a `String` (see `jsParseFloatChars`). -/
def jsParseFloat (s : String) : Option JsNumber :=
  jsParseFloatChars s.data

/-- Model of JavaScript `parseInt(s, 10)`: optional sign followed by the
maximal run of leading decimal digits; `none` is `NaN`. -/
def jsParseInt (s : String) : Option ℤ :=
  let cs := s.data.dropWhile Char.isWhitespace
  let signAndRest : ℤ × List Char :=
    match cs with
    | '-' :: rest => (-1, rest)
    | '+' :: rest => (1, rest)
    | _ => (1, cs)
  let ds := signAndRest.2.takeWhile Char.isDigit
  if ds.isEmpty then none else some (signAndRest.1 * (digitsToNat ds : ℤ))

/-- A JS value that is statically `string | number` (the declared type of
the `latitude-2` / `longitude-2` fields).  JSON numbers are finite, hence
plain `JsNumber`. -/
inductive StrOrNum where
  | str (s : String)
  | num (q : JsNumber)
deriving Repr, DecidableEq

/-- A JS value that is statically `{ url: string } | string` (the declared
type of the link fields). -/
inductive LinkVal where
  | obj (url : String)
  | str (s : String)
deriving Repr, DecidableEq

/-- A latitude/longitude pair as produced by the coordinate parsers. -/
structure Coords where
  latitude : JsNumber
  longitude : JsNumber
deriving Repr, DecidableEq

/-- The loosely-typed Webflow `fieldData` bag, with one optional slot per
field name that any of the three content kinds reads.  Image fields carry
just the `url` member of their `{ url }` objects. -/
structure FieldData where
  name : String := ""
  slug : Option String := none
  episodeDescription : Option String := none
  description : Option String := none
  coverImage : Option String := none
  mainImage : Option String := none
  image : Option String := none
  thumbnailImage2 : Option String := none
  coverImage2 : Option String := none
  youtubeLink : Option LinkVal := none
  videoLink : Option LinkVal := none
  spotifyLink : Option String := none
  websiteLink : Option String := none
  playlistLink2 : Option String := none
  buttonText : Option String := none
  buttonText2 : Option String := none
  latitude2 : Option StrOrNum := none
  longitude2 : Option StrOrNum := none
  locationCoordinates : Option String := none
  locationName : Option String := none
  publishedDate : Option String := none
  episodeTags : Option (List String) := none
  tags : Option (List String) := none
  initiativeTags2 : Option (List String) := none
deriving Repr, DecidableEq

/-- Parsing of one combined `"lat, lng"` coordinate string: split on
comma, trim, `parseFloat` both halves, reject `NaN`.  This is the body of
the combined-field branch of `parseCoordinates` in
`app/api/webhooks/cms-sync/route.ts` and in the full-sync route, and is
also exactly `parseCoordinates(coordString)` of `lib/shared.ts` /
`lib/podcasts.ts` (which take the string directly). -/
def parseCoordString (coordString : String) : Option Coords :=
  let parts := (splitOnCommaChars coordString.data).map trimChars
  match parts with
  | [p0, p1] =>
    match jsParseFloatChars p0, jsParseFloatChars p1 with
    | some lat, some lng => some ⟨lat, lng⟩
    | _, _ => none
  | _ => none

/-! ## The local relational store

One list per table of `db/schema.ts`.  `latitude`/`longitude` are
`REAL NOT NULL` columns; they are modelled as `Option JsNumber` so that
the non-null invariant is expressible — the sync code must be shown to
write only `some` values.  (`podcasts`/`podcast_tags` of the earlier
schema generation are aliases of `stories`/`story_tags`, per
migration 0005 and the `export const podcasts = stories` alias.) -/

/-- One row of the `tags` table. -/
structure TagRow where
  id : String
  webflowItemId : String
  name : String
  slug : Option String
deriving Repr, DecidableEq

/-- One row of the `stories` table (a.k.a. `podcasts`). -/
structure StoryRow where
  id : String
  webflowItemId : String
  title : String
  slug : Option String := none
  description : Option String := none
  thumbnailUrl : Option String := none
  mainImageUrl : Option String := none
  youtubeLink : Option String := none
  buttonText : Option String := none
  spotifyLink : Option String := none
  latitude : Option JsNumber := none
  longitude : Option JsNumber := none
  locationName : Option String := none
  publishedAt : Option String := none
  createdAt : Option String := none
  updatedAt : Option String := none
deriving Repr, DecidableEq

/-- One row of the `places` table. -/
structure PlaceRow where
  id : String
  webflowItemId : String
  title : String
  slug : Option String := none
  description : Option String := none
  thumbnailUrl : Option String := none
  mainImageUrl : Option String := none
  youtubeLink : Option String := none
  buttonText : Option String := none
  latitude : Option JsNumber := none
  longitude : Option JsNumber := none
  locationName : Option String := none
  address : Option String := none
  websiteUrl : Option String := none
  openingHours : Option String := none
  createdAt : Option String := none
  updatedAt : Option String := none
deriving Repr, DecidableEq

/-- One row of the `initiatives` table. -/
structure InitiativeRow where
  id : String
  webflowItemId : String
  title : String
  slug : Option String := none
  description : Option String := none
  thumbnailUrl : Option String := none
  mainImageUrl : Option String := none
  youtubeLink : Option String := none
  buttonText : Option String := none
  latitude : Option JsNumber := none
  longitude : Option JsNumber := none
  locationName : Option String := none
  eventDate : Option String := none
  endDate : Option String := none
  googlePlaylistUrl : Option String := none
  eventUrl : Option String := none
  createdAt : Option String := none
  updatedAt : Option String := none
deriving Repr, DecidableEq

/-- One row of the `story_tags` junction table (a.k.a. `podcast_tags`). -/
structure StoryTagRow where
  storyId : String
  tagId : String
deriving Repr, DecidableEq

/-- One row of the `place_tags` junction table. -/
structure PlaceTagRow where
  placeId : String
  tagId : String
deriving Repr, DecidableEq

/-- One row of the `initiative_tags` junction table. -/
structure InitiativeTagRow where
  initiativeId : String
  tagId : String
deriving Repr, DecidableEq

/-- The whole local store: the seven tables of the persisted schema.
Row order models physical insertion order (queries that sort do so
explicitly). -/
structure Db where
  stories : List StoryRow := []
  places : List PlaceRow := []
  initiatives : List InitiativeRow := []
  tags : List TagRow := []
  storyTags : List StoryTagRow := []
  placeTags : List PlaceTagRow := []
  initiativeTags : List InitiativeTagRow := []
deriving Repr, DecidableEq

/-- An item as returned by the Webflow list API. -/
structure WebflowItem where
  id : String
  fieldData : FieldData
deriving Repr, DecidableEq

namespace CmsSync

/-- `parseCoordinates(fieldData)` from the webhook route
(`app/api/webhooks/cms-sync/route.ts`, identical copy in the full-sync
route): try the combined `location-coordinates` field first (a present
but empty string is falsy in JS and skips the branch); if that branch
does not produce a value, fall through to the discrete
`latitude-2`/`longitude-2` fields. -/
def parseCoordinates (fd : FieldData) : Option Coords :=
  let combined : Option Coords :=
    match fd.locationCoordinates with
    | some coordString =>
      if coordString = "" then none else parseCoordString coordString
    | none => none
  match combined with
  | some c => some c
  | none =>
    match fd.latitude2, fd.longitude2 with
    | some l2, some g2 =>
      let lat : Option JsNumber := match l2 with | .str s => jsParseFloat s | .num q => some q
      let lng : Option JsNumber := match g2 with | .str s => jsParseFloat s | .num q => some q
      match lat, lng with
      | some a, some b => some ⟨a, b⟩
      | _, _ => none
    | _, _ => none

/-- `parseYoutubeLink(value)` from the webhook route: an object yields its
`url` member, a string yields itself, anything else yields `undefined`. -/
def parseYoutubeLink : Option LinkVal → Option String
  | some (.obj u) => some u
  | some (.str s) => some s
  | none => none

/-- `upsertTag(db, payload)`: look up by `webflow_item_id`; update name
and slug in place if found, otherwise insert a fresh row with a new
local id. -/
def upsertTag (freshId payloadId : String) (fd : FieldData) (db : Db) : Db :=
  match db.tags.find? (fun t => t.webflowItemId = payloadId) with
  | some _ =>
    { db with
      tags := db.tags.map (fun t =>
        if t.webflowItemId = payloadId then { t with name := fd.name, slug := fd.slug } else t) }
  | none =>
    { db with tags := db.tags ++ [{ id := freshId, webflowItemId := payloadId, name := fd.name, slug := fd.slug }] }

/-- `deleteTag(db, webflowItemId)`: delete the tag row; the schema's
`ON DELETE CASCADE` on every junction table's `tag_id` foreign key
removes all junction rows referencing it (the source comments
"Cascade will handle junction table cleanup"). -/
def deleteTag (webflowItemId : String) (db : Db) : Db :=
  match db.tags.find? (fun t => t.webflowItemId = webflowItemId) with
  | some tag =>
    { db with
      tags := db.tags.filter (fun t => ¬ (t.id = tag.id)),
      storyTags := db.storyTags.filter (fun j => ¬ (j.tagId = tag.id)),
      placeTags := db.placeTags.filter (fun j => ¬ (j.tagId = tag.id)),
      initiativeTags := db.initiativeTags.filter (fun j => ¬ (j.tagId = tag.id)) }
  | none => db

/-- `syncPodcastTagJunction(db, podcastId, tagWebflowIds)`
(route.ts:401-415; textually identical to `syncStoryTagJunction` of the
full-sync route): delete every junction row of this entity, then insert
one row per incoming tag reference that resolves against the `tags`
table, unresolvable references silently dropped. -/
def syncPodcastTagJunction (podcastId : String) (tagWebflowIds : List String) (db : Db) : Db :=
  let db0 := { db with storyTags := db.storyTags.filter (fun j => ¬ (j.storyId = podcastId)) }
  tagWebflowIds.foldl
    (fun acc tagWebflowId =>
      match acc.tags.find? (fun t => t.webflowItemId = tagWebflowId) with
      | some t => { acc with storyTags := acc.storyTags ++ [{ storyId := podcastId, tagId := t.id }] }
      | none => acc)
    db0

/-- The `db.update(podcasts).set({...})` of `upsertPodcast`, applied to
one row: all mutable fields are overwritten, `id`, `webflow_item_id` and
`created_at` are untouched. -/
def updateStoryRow (nowIso : String) (fd : FieldData) (coords : Coords) (payloadId : String)
    (r : StoryRow) : StoryRow :=
  if r.webflowItemId = payloadId then
    { r with
      title := fd.name, slug := fd.slug, description := fd.episodeDescription,
      thumbnailUrl := fd.coverImage, mainImageUrl := fd.mainImage,
      youtubeLink := parseYoutubeLink fd.youtubeLink, buttonText := fd.buttonText,
      spotifyLink := fd.spotifyLink,
      latitude := some coords.latitude, longitude := some coords.longitude,
      locationName := fd.locationName, publishedAt := fd.publishedDate,
      updatedAt := some nowIso }
  else r

/-- The `db.insert(podcasts).values({...})` of `upsertPodcast`. -/
def newStoryRow (nowIso freshId payloadId : String) (fd : FieldData) (coords : Coords) : StoryRow :=
  { id := freshId, webflowItemId := payloadId,
    title := fd.name, slug := fd.slug, description := fd.episodeDescription,
    thumbnailUrl := fd.coverImage, mainImageUrl := fd.mainImage,
    youtubeLink := parseYoutubeLink fd.youtubeLink, buttonText := fd.buttonText,
    spotifyLink := fd.spotifyLink,
    latitude := some coords.latitude, longitude := some coords.longitude,
    locationName := fd.locationName, publishedAt := fd.publishedDate,
    createdAt := some nowIso, updatedAt := some nowIso }

/-- `upsertPodcast(db, payload)` (route.ts:321-386): skip if coordinates
fail to parse; otherwise update in place (keyed by `webflow_item_id`) or
insert with a fresh local id, then full-replace the junction rows with
the resolved incoming `episode-tags`. -/
def upsertPodcast (nowIso freshId payloadId : String) (fd : FieldData) (db : Db) : Db :=
  match parseCoordinates fd with
  | none => db
  | some coords =>
    let idAndStories : String × List StoryRow :=
      match db.stories.find? (fun r => r.webflowItemId = payloadId) with
      | some existing => (existing.id, db.stories.map (updateStoryRow nowIso fd coords payloadId))
      | none => (freshId, db.stories ++ [newStoryRow nowIso freshId payloadId fd coords])
    syncPodcastTagJunction idAndStories.1 (fd.episodeTags.getD [])
      { db with stories := idAndStories.2 }

/-- `deletePodcast(db, webflowItemId)`: delete the entity's junction rows
then the entity row itself. -/
def deletePodcast (webflowItemId : String) (db : Db) : Db :=
  match db.stories.find? (fun r => r.webflowItemId = webflowItemId) with
  | some existing =>
    { db with
      storyTags := db.storyTags.filter (fun j => ¬ (j.storyId = existing.id)),
      stories := db.stories.filter (fun r => ¬ (r.id = existing.id)) }
  | none => db

/-- `syncPlaceTagJunction(db, placeId, tagWebflowIds)`: as for podcasts. -/
def syncPlaceTagJunction (placeId : String) (tagWebflowIds : List String) (db : Db) : Db :=
  let db0 := { db with placeTags := db.placeTags.filter (fun j => ¬ (j.placeId = placeId)) }
  tagWebflowIds.foldl
    (fun acc tagWebflowId =>
      match acc.tags.find? (fun t => t.webflowItemId = tagWebflowId) with
      | some t => { acc with placeTags := acc.placeTags ++ [{ placeId := placeId, tagId := t.id }] }
      | none => acc)
    db0

/-- The update statement of `upsertPlace`, applied to one row. -/
def updatePlaceRow (nowIso : String) (fd : FieldData) (coords : Coords) (payloadId : String)
    (r : PlaceRow) : PlaceRow :=
  if r.webflowItemId = payloadId then
    { r with
      title := fd.name, slug := fd.slug, description := fd.description,
      thumbnailUrl := fd.image, mainImageUrl := fd.coverImage,
      youtubeLink := parseYoutubeLink fd.youtubeLink, buttonText := fd.buttonText,
      latitude := some coords.latitude, longitude := some coords.longitude,
      locationName := fd.locationName, websiteUrl := fd.websiteLink,
      updatedAt := some nowIso }
  else r

/-- The insert statement of `upsertPlace`. -/
def newPlaceRow (nowIso freshId payloadId : String) (fd : FieldData) (coords : Coords) : PlaceRow :=
  { id := freshId, webflowItemId := payloadId,
    title := fd.name, slug := fd.slug, description := fd.description,
    thumbnailUrl := fd.image, mainImageUrl := fd.coverImage,
    youtubeLink := parseYoutubeLink fd.youtubeLink, buttonText := fd.buttonText,
    latitude := some coords.latitude, longitude := some coords.longitude,
    locationName := fd.locationName, websiteUrl := fd.websiteLink,
    createdAt := some nowIso, updatedAt := some nowIso }

/-- `upsertPlace(db, payload)` (route.ts:421-484). -/
def upsertPlace (nowIso freshId payloadId : String) (fd : FieldData) (db : Db) : Db :=
  match parseCoordinates fd with
  | none => db
  | some coords =>
    let idAndPlaces : String × List PlaceRow :=
      match db.places.find? (fun r => r.webflowItemId = payloadId) with
      | some existing => (existing.id, db.places.map (updatePlaceRow nowIso fd coords payloadId))
      | none => (freshId, db.places ++ [newPlaceRow nowIso freshId payloadId fd coords])
    syncPlaceTagJunction idAndPlaces.1 (fd.tags.getD [])
      { db with places := idAndPlaces.2 }

/-- `deletePlace(db, webflowItemId)`. -/
def deletePlace (webflowItemId : String) (db : Db) : Db :=
  match db.places.find? (fun r => r.webflowItemId = webflowItemId) with
  | some existing =>
    { db with
      placeTags := db.placeTags.filter (fun j => ¬ (j.placeId = existing.id)),
      places := db.places.filter (fun r => ¬ (r.id = existing.id)) }
  | none => db

/-- `syncInitiativeTagJunction(db, initiativeId, tagWebflowIds)`. -/
def syncInitiativeTagJunction (initiativeId : String) (tagWebflowIds : List String) (db : Db) : Db :=
  let db0 :=
    { db with initiativeTags := db.initiativeTags.filter (fun j => ¬ (j.initiativeId = initiativeId)) }
  tagWebflowIds.foldl
    (fun acc tagWebflowId =>
      match acc.tags.find? (fun t => t.webflowItemId = tagWebflowId) with
      | some t =>
        { acc with initiativeTags := acc.initiativeTags ++ [{ initiativeId := initiativeId, tagId := t.id }] }
      | none => acc)
    db0

/-- The update statement of `upsertInitiative`, applied to one row. -/
def updateInitiativeRow (nowIso : String) (fd : FieldData) (coords : Coords) (payloadId : String)
    (r : InitiativeRow) : InitiativeRow :=
  if r.webflowItemId = payloadId then
    { r with
      title := fd.name, slug := fd.slug, description := fd.description,
      thumbnailUrl := fd.thumbnailImage2, mainImageUrl := fd.coverImage2,
      youtubeLink := parseYoutubeLink fd.videoLink, buttonText := fd.buttonText2,
      latitude := some coords.latitude, longitude := some coords.longitude,
      locationName := fd.locationName, googlePlaylistUrl := fd.playlistLink2,
      updatedAt := some nowIso }
  else r

/-- The insert statement of `upsertInitiative`. -/
def newInitiativeRow (nowIso freshId payloadId : String) (fd : FieldData) (coords : Coords) :
    InitiativeRow :=
  { id := freshId, webflowItemId := payloadId,
    title := fd.name, slug := fd.slug, description := fd.description,
    thumbnailUrl := fd.thumbnailImage2, mainImageUrl := fd.coverImage2,
    youtubeLink := parseYoutubeLink fd.videoLink, buttonText := fd.buttonText2,
    latitude := some coords.latitude, longitude := some coords.longitude,
    locationName := fd.locationName, googlePlaylistUrl := fd.playlistLink2,
    createdAt := some nowIso, updatedAt := some nowIso }

/-- `upsertInitiative(db, payload)` (route.ts:519-582). -/
def upsertInitiative (nowIso freshId payloadId : String) (fd : FieldData) (db : Db) : Db :=
  match parseCoordinates fd with
  | none => db
  | some coords =>
    let idAndRows : String × List InitiativeRow :=
      match db.initiatives.find? (fun r => r.webflowItemId = payloadId) with
      | some existing => (existing.id, db.initiatives.map (updateInitiativeRow nowIso fd coords payloadId))
      | none => (freshId, db.initiatives ++ [newInitiativeRow nowIso freshId payloadId fd coords])
    syncInitiativeTagJunction idAndRows.1 (fd.initiativeTags2.getD [])
      { db with initiatives := idAndRows.2 }

/-- `deleteInitiative(db, webflowItemId)`. -/
def deleteInitiative (webflowItemId : String) (db : Db) : Db :=
  match db.initiatives.find? (fun r => r.webflowItemId = webflowItemId) with
  | some existing =>
    { db with
      initiativeTags := db.initiativeTags.filter (fun j => ¬ (j.initiativeId = existing.id)),
      initiatives := db.initiatives.filter (fun r => ¬ (r.id = existing.id)) }
  | none => db

/-- `verifySignature(timestamp, body, signature, secret)` of the webhook
route: reject empty inputs; reject when the parsed timestamp is more
than 300000 ms older than `now` (in JS, `Date.now() - NaN > 300000` is
false, so an unparseable timestamp passes the freshness gate); then
compare the expected HMAC-SHA256 hex digest of `"{timestamp}:{body}"`
with the presented signature.  The digest function is abstracted as
`hmacHex secret message`; the length guard plus constant-time xor fold
of the source decide exactly string equality. -/
def verifySignature (hmacHex : String → String → String)
    (timestamp body signature secret : String) (now : ℤ) : Bool :=
  if timestamp = "" ∨ signature = "" ∨ secret = "" then false
  else
    let stale : Bool :=
      match jsParseInt timestamp with
      | some t => decide (now - t > 300000)
      | none => false
    if stale then false
    else
      let expectedSignature := hmacHex secret (timestamp ++ ":" ++ body)
      expectedSignature == signature

/-- The environment bindings the webhook route reads.  Collection ids are
`Option String`; JS truthiness makes a missing binding and an empty
string equivalent. -/
structure Env where
  webhookSecret : Option String := none
  storiesCollectionId : Option String := none
  placesCollectionId : Option String := none
  initiativesCollectionId : Option String := none
  storyTagsCollectionId : Option String := none
  placeTagsCollectionId : Option String := none
  initiativeTagsCollectionId : Option String := none
deriving Repr, DecidableEq

/-- The content kind a collection id routes to. -/
inductive ContentType where
  | podcast
  | place
  | initiative
  | tag
deriving Repr, DecidableEq

/-- JS truthiness of an optional string: `undefined` and `""` are falsy. -/
def truthyOpt : Option String → Option String
  | some s => if s = "" then none else some s
  | none => none

/-- The `collectionMap` entries in `Map.set` insertion order. -/
def collectionEntries (env : Env) : List (String × ContentType) :=
  (match truthyOpt env.storiesCollectionId with | some c => [(c, ContentType.podcast)] | none => []) ++
  (match truthyOpt env.placesCollectionId with | some c => [(c, ContentType.place)] | none => []) ++
  (match truthyOpt env.initiativesCollectionId with | some c => [(c, ContentType.initiative)] | none => []) ++
  (match truthyOpt env.storyTagsCollectionId with | some c => [(c, ContentType.tag)] | none => []) ++
  (match truthyOpt env.placeTagsCollectionId with | some c => [(c, ContentType.tag)] | none => []) ++
  (match truthyOpt env.initiativeTagsCollectionId with | some c => [(c, ContentType.tag)] | none => [])

/-- `collectionMap.get(collectionId)`: for a JS `Map`, the last `set` of a
key wins, hence lookup on the reversed entry list. -/
def collectionLookup (env : Env) (collectionId : String) : Option ContentType :=
  ((collectionEntries env).reverse.find? (fun e => e.1 = collectionId)).map (fun e => e.2)

/-- The event-type discriminator of the webhook handler (route.ts:199). -/
def isDeleteTrigger (t : String) : Bool :=
  t == "collection_item_deleted" || t == "collection_item_unpublished"

/-- One inbound webhook request.  `triggerType`, `payloadId`,
`collectionId` and `fieldData` stand for `JSON.parse(body)` — JSON
parsing itself is not modelled, the parsed payload travels next to the
raw body it came from. -/
structure WebhookRequest where
  tsHeader : Option String := none
  sigHeader : Option String := none
  body : String := ""
  triggerType : String := ""
  payloadId : String := ""
  collectionId : String := ""
  fieldData : FieldData := {}
deriving Repr, DecidableEq

/-- The webhook `POST` handler (route.ts:144-232): missing headers give
401; with a configured secret, failed verification gives 401; an
unmapped collection id is acknowledged 200 without touching the store;
otherwise the delete or upsert of the routed kind runs and the request
is acknowledged 200.  The result is the HTTP status paired with the
store state after the request. -/
def handleWebhook (hmacHex : String → String → String) (now : ℤ) (nowIso freshId : String)
    (env : Env) (req : WebhookRequest) (db : Db) : Nat × Db :=
  match req.tsHeader, req.sigHeader with
  | some ts, some sig =>
    if ts = "" ∨ sig = "" then (401, db)
    else
      let webhookSecret := env.webhookSecret.getD ""
      if webhookSecret ≠ "" ∧ verifySignature hmacHex ts req.body sig webhookSecret now = false then
        (401, db)
      else
        match collectionLookup env req.collectionId with
        | none => (200, db)
        | some contentType =>
          let isDelete := isDeleteTrigger req.triggerType
          match contentType with
          | .tag =>
            (200, if isDelete then deleteTag req.payloadId db
                  else upsertTag freshId req.payloadId req.fieldData db)
          | .podcast =>
            (200, if isDelete then deletePodcast req.payloadId db
                  else upsertPodcast nowIso freshId req.payloadId req.fieldData db)
          | .place =>
            (200, if isDelete then deletePlace req.payloadId db
                  else upsertPlace nowIso freshId req.payloadId req.fieldData db)
          | .initiative =>
            (200, if isDelete then deleteInitiative req.payloadId db
                  else upsertInitiative nowIso freshId req.payloadId req.fieldData db)
  | _, _ => (401, db)

end CmsSync

namespace FullSync

/-- The `pagination` member of a Webflow list response. -/
structure Pagination where
  limit : Nat
  offset : Nat
  total : Nat
deriving Repr, DecidableEq

/-- One Webflow list response: `items` plus an optional `pagination`. -/
structure PageResponse where
  items : List WebflowItem
  pagination : Option Pagination
deriving Repr, DecidableEq

/-- The `while (true)` pagination loop of `fetchWebflowItems`
(full-sync route, lines 422-448).  `responses` is the sequence of
successive responses the external source would return for offsets
0, 100, 200, …; the accumulator is `allItems`.  `some items` means the
loop broke and returned; `none` means the loop consumed every provided
response and still issued another request — i.e. it did not terminate
within `responses.length` iterations.  The break condition is the
source's: stop only when the response has no `pagination` member or the
accumulated count has reached `pagination.total`. -/
def fetchWebflowItemsLoop : List PageResponse → List WebflowItem → Option (List WebflowItem)
  | [], _ => none
  | r :: rest, allItems =>
    let allItems := allItems ++ r.items
    match r.pagination with
    | none => some allItems
    | some p => if allItems.length ≥ p.total then some allItems else fetchWebflowItemsLoop rest allItems

/-- State threaded through a reconciliation batch: the store, the supply
of fresh local ids (one consumed per insert), and the processed-item
count the job returns. -/
structure SyncState where
  db : Db
  freshIds : List String := []
  count : Nat := 0
deriving Repr, DecidableEq

/-- The body of `syncStories`' per-item loop (full-sync route,
lines 544-612).  Field mapping is identical to the webhook
`upsertPodcast`; the one difference is the guard on the junction sync:
`if (tagIds.length > 0)` — the junction replacement is skipped entirely
when the incoming tag list is empty. -/
def syncStoriesStep (nowIso : String) (st : SyncState) (item : WebflowItem) : SyncState :=
  match CmsSync.parseCoordinates item.fieldData with
  | none => st
  | some coords =>
    let idStoriesFresh : String × List StoryRow × List String :=
      match st.db.stories.find? (fun r => r.webflowItemId = item.id) with
      | some existing =>
        (existing.id, st.db.stories.map (CmsSync.updateStoryRow nowIso item.fieldData coords item.id),
          st.freshIds)
      | none =>
        (st.freshIds.headD "",
          st.db.stories ++ [CmsSync.newStoryRow nowIso (st.freshIds.headD "") item.id item.fieldData coords],
          st.freshIds.tail)
    let db1 := { st.db with stories := idStoriesFresh.2.1 }
    let tagIds := item.fieldData.episodeTags.getD []
    let db2 :=
      if tagIds.length > 0 then CmsSync.syncPodcastTagJunction idStoriesFresh.1 tagIds db1 else db1
    { db := db2, freshIds := idStoriesFresh.2.2, count := st.count + 1 }

/-- `syncStories` over an already-fetched item list: the sequential
per-item fold of the full-reconciliation job. -/
def syncStories (nowIso : String) (items : List WebflowItem) (st : SyncState) : SyncState :=
  items.foldl (syncStoriesStep nowIso) st

end FullSync

/-! ## Read layer -/

/-- JS `x || null` on an optional string: `undefined` and `""` both
normalize to `null`. -/
def jsStrOrNull : Option String → Option String
  | some s => if s = "" then none else some s
  | none => none

/-- Byte-wise (code-unit) ordering on character lists, kernel-reducible;
used for SQLite TEXT comparisons and as the model of
`String.prototype.localeCompare`. -/
def charListLe : List Char → List Char → Bool
  | [], _ => true
  | _ :: _, [] => false
  | a :: as, b :: bs => if a = b then charListLe as bs else decide (a < b)

/-- Insert into a sorted list, after every element that may stay before
the new one — the stable insertion. -/
def insertSorted (le : α → α → Bool) (x : α) : List α → List α
  | [] => [x]
  | y :: l => if le y x then y :: insertSorted le x l else x :: y :: l

/-- Stable sort by insertion; models JS `Array.prototype.sort` (stable
since ES2019) with comparator `c` via `le a b := c(a,b) ≤ 0`, and SQL
`ORDER BY`. -/
def stableSort (le : α → α → Bool) (l : List α) : List α :=
  l.foldl (fun acc x => insertSorted le x acc) []

/-- Lower-case, then replace each maximal whitespace run by `'-'`:
`name.toLowerCase().replace(/\s+/g, '-')` (the tag slug default). -/
def slugify (s : String) : String :=
  String.mk (collapseWs false (s.data.map Char.toLower))
where
  collapseWs : Bool → List Char → List Char
    | _, [] => []
    | prevWs, c :: rest =>
      if c.isWhitespace then
        if prevWs then collapseWs true rest else '-' :: collapseWs true rest
      else c :: collapseWs false rest

namespace PodcastsLib

/-- A Webflow episode item as read by `lib/podcasts.ts`
(`WebflowEpisode`): the discrete coordinate fields are declared
`string`. -/
structure Episode where
  id : String
  name : String := ""
  slug : Option String := none
  locationCoordinates : Option String := none
  latitude2 : Option String := none
  longitude2 : Option String := none
  episodeDescription : Option String := none
  locationName : Option String := none
  spotifyLink : Option String := none
  coverImage : Option String := none
  mainImage : Option String := none
  youtubeLink : Option LinkVal := none
  buttonText : Option String := none
  publishedDate : Option String := none
  episodeTags : Option (List String) := none
deriving Repr, DecidableEq

/-- The `Tag` shape of `types.ts`. -/
structure TagOut where
  id : String
  name : String
  slug : Option String := none
deriving Repr, DecidableEq

/-- The `Podcast` shape of `types.ts` as produced by `transformEpisode`
(the `type: 'podcast'` discriminator is constant and omitted). -/
structure PodcastOut where
  id : String
  webflowItemId : String
  title : String
  slug : Option String := none
  description : Option String := none
  thumbnailUrl : Option String := none
  mainImageUrl : Option String := none
  youtubeLink : Option String := none
  buttonText : Option String := none
  spotifyLink : Option String := none
  latitude : JsNumber
  longitude : JsNumber
  locationName : Option String := none
  publishedAt : Option String := none
  createdAt : Option String := none
  updatedAt : Option String := none
  tags : List TagOut := []
deriving Repr, DecidableEq

/-- `tagsMap.get(tagId)` for the `Map` built from a tag array
(`new Map(tags.map(tag => [tag.id, tag]))`): the last entry for a
duplicated key wins. -/
def tagsMapGet (tagsList : List TagOut) (tagId : String) : Option TagOut :=
  tagsList.reverse.find? (fun t => t.id = tagId)

/-- `transformEpisode(episode, tagsMap)` of `lib/podcasts.ts` (lines
36-93): a truthy combined `location-coordinates` field must itself parse
— on parse failure the item is rejected even if discrete fields are
present; only an absent (or empty, hence falsy) combined field reaches
the discrete `latitude-2`/`longitude-2` branch, which requires both to
be truthy and parse to non-NaN; otherwise rejection.  The remaining
fields are mapped with `|| null` normalization, and tag references are
resolved against `tagsMap`, dropping unresolvable ones. -/
def transformEpisode (ep : Episode) (tagsList : List TagOut) : Option PodcastOut :=
  let coords : Option Coords :=
    match jsStrOrNull ep.locationCoordinates with
    | some s => parseCoordString s
    | none =>
      match jsStrOrNull ep.latitude2, jsStrOrNull ep.longitude2 with
      | some lat2, some lng2 =>
        match jsParseFloat lat2, jsParseFloat lng2 with
        | some lat, some lng => some ⟨lat, lng⟩
        | _, _ => none
      | _, _ => none
  match coords with
  | none => none
  | some c =>
    let youtubeLink : Option String :=
      match ep.youtubeLink with
      | some (.obj u) => some u
      | some (.str s) => some s
      | none => none
    some
      { id := ep.id, webflowItemId := ep.id,
        title := ep.name,
        slug := jsStrOrNull ep.slug,
        description := jsStrOrNull ep.episodeDescription,
        thumbnailUrl := jsStrOrNull ep.coverImage,
        mainImageUrl := jsStrOrNull ep.mainImage,
        youtubeLink := jsStrOrNull youtubeLink,
        buttonText := jsStrOrNull ep.buttonText,
        spotifyLink := jsStrOrNull ep.spotifyLink,
        latitude := c.latitude, longitude := c.longitude,
        locationName := jsStrOrNull ep.locationName,
        publishedAt := jsStrOrNull ep.publishedDate,
        createdAt := none, updatedAt := none,
        tags := (ep.episodeTags.getD []).filterMap (tagsMapGet tagsList) }

/-- The publish-date comparator of `getPodcastsFromWebflow`, as the
stable-sort relation `le a b := c(a,b) ≤ 0`: null publish dates sort
last, otherwise newest (largest `new Date(..).getTime()`, abstracted as
`dateMs`) first. -/
def publishedLe (dateMs : String → ℤ) (a b : PodcastOut) : Bool :=
  match a.publishedAt, b.publishedAt with
  | none, none => true
  | none, some _ => false
  | some _, none => true
  | some x, some y => decide (dateMs y - dateMs x ≤ 0)

/-- `getPodcastsFromWebflow(env, tags, filterTagIds?)` of
`lib/podcasts.ts`, given the items the external source returns: map
every episode through `transformEpisode` dropping rejected ones, apply
the OR-semantics tag filter when a nonempty filter list is given, then
sort newest-first. -/
def getPodcastsFromWebflow (dateMs : String → ℤ) (episodes : List Episode)
    (tagsList : List TagOut) (filterTagIds : Option (List String)) : List PodcastOut :=
  let podcasts0 := episodes.filterMap (fun e => transformEpisode e tagsList)
  let podcasts1 :=
    match filterTagIds with
    | some ids =>
      if ids.length > 0 then
        podcasts0.filter (fun p => p.tags.any (fun t => ids.contains t.id))
      else podcasts0
    | none => podcasts0
  stableSort (publishedLe dateMs) podcasts1

/-- A raw Webflow tag item (`{ id, fieldData: { name, slug? } }`). -/
structure TagItem where
  id : String
  name : String
  slug : Option String := none
deriving Repr, DecidableEq

/-- `fetchTagsFromCollection` / `getTagsFromWebflow` mapping, given the
items the source returns: slug defaults to the slugified name, sorted by
name (`localeCompare` approximated by code-unit order). -/
def getTagsFromWebflow (items : List TagItem) : List TagOut :=
  stableSort (fun a b => charListLe a.name.data b.name.data)
    (items.map (fun item =>
      { id := item.id, name := item.name,
        slug := some ((jsStrOrNull item.slug).getD (slugify item.name)) }))

end PodcastsLib

namespace DataLib

/-- A story row joined with its resolved tags, as the DB read paths
return (`{ ...story, type: 'podcast', tags }`). -/
structure StoryWithTags where
  story : StoryRow
  tags : List PodcastsLib.TagOut
deriving Repr, DecidableEq

/-- `ORDER BY published_at DESC` on a nullable TEXT column: SQLite sorts
NULLs last under DESC, other values by reverse lexicographic byte
order. -/
def publishedDescLe (a b : StoryRow) : Bool :=
  match a.publishedAt, b.publishedAt with
  | none, none => true
  | none, some _ => false
  | some _, none => true
  | some x, some y => charListLe y.data x.data

/-- The tag join both DB read paths perform for one story:
`tags INNER JOIN story_tags ON tags.id = story_tags.tag_id WHERE
story_tags.story_id = story.id`. -/
def tagsOfStory (db : Db) (storyId : String) : List PodcastsLib.TagOut :=
  (db.storyTags.filter (fun j => j.storyId = storyId)).filterMap (fun j =>
    (db.tags.find? (fun t => t.id = j.tagId)).map (fun t =>
      { id := t.id, name := t.name, slug := t.slug }))

/-- `getStoriesFromDb()` of `lib/data.ts`: every story, newest publish
date first, each with its joined tags. -/
def getStoriesFromDb (db : Db) : List StoryWithTags :=
  (stableSort publishedDescLe db.stories).map (fun s => ⟨s, tagsOfStory db s.id⟩)

/-- The two shapes `getAllStories` can return: rows read from the local
store, or live-mapped podcasts from the external source (structurally
compatible in TS, distinguished here by origin). -/
inductive StoriesResult where
  | fromDb (rows : List StoryWithTags)
  | fromWebflow (rows : List PodcastsLib.PodcastOut)
deriving Repr, DecidableEq

/-- `getAllStories(env, storyTagList)` of `lib/data.ts` (lines 98-106):
try the store; a *nonempty* result is returned as-is, while an empty
result — and a thrown query, modelled by `dbOk = false` — falls back to
the live fetch-and-map against the external source. -/
def getAllStories (dbOk : Bool) (db : Db) (dateMs : String → ℤ)
    (episodes : List PodcastsLib.Episode) (storyTagList : List PodcastsLib.TagOut) :
    StoriesResult :=
  if dbOk then
    let result := getStoriesFromDb db
    if result.length > 0 then .fromDb result
    else .fromWebflow (PodcastsLib.getPodcastsFromWebflow dateMs episodes storyTagList none)
  else .fromWebflow (PodcastsLib.getPodcastsFromWebflow dateMs episodes storyTagList none)

end DataLib

namespace ApiPodcasts

/-- `fetchFromDatabase(env, tagIds)` of `app/api/podcasts/route.ts`:
with a nonempty tag filter, first select the distinct story ids carrying
any requested tag (empty result short-circuits to `[]`); stories are
returned newest-first with joined tags.  This function throws only on a
database fault — an empty store yields a successful empty response. -/
def fetchFromDatabase (db : Db) (tagIds : List String) : List DataLib.StoryWithTags :=
  let storyList : List StoryRow :=
    if tagIds.length > 0 then
      let storyIds :=
        ((db.storyTags.filter (fun j => tagIds.contains j.tagId)).map (fun j => j.storyId)).dedup
      if storyIds.length = 0 then []
      else stableSort DataLib.publishedDescLe (db.stories.filter (fun s => storyIds.contains s.id))
    else stableSort DataLib.publishedDescLe db.stories
  storyList.map (fun s => ⟨s, DataLib.tagsOfStory db s.id⟩)

/-- `fetchFromWebflow(env, tagIds)` of the podcasts route: fetch and map
the tag collection, then the episodes, with the tag filter forwarded
only when nonempty. -/
def fetchFromWebflow (dateMs : String → ℤ) (episodes : List PodcastsLib.Episode)
    (tagItems : List PodcastsLib.TagItem) (tagIds : List String) :
    List PodcastsLib.PodcastOut :=
  let allTags := PodcastsLib.getTagsFromWebflow tagItems
  PodcastsLib.getPodcastsFromWebflow dateMs episodes allTags
    (if tagIds.length > 0 then some tagIds else none)

/-- The three observable outcomes of `GET /api/podcasts`. -/
inductive GetResult where
  | dbJson (rows : List DataLib.StoryWithTags)
  | webflowJson (rows : List PodcastsLib.PodcastOut)
  | errorResult
deriving Repr, DecidableEq

/-- `GET(request)` of `app/api/podcasts/route.ts` (lines 10-30): serve
from the store unless the store *throws* (`dbOk = false`); on a store
fault fall back to the live fetch (`webflowOk` models that fetch
succeeding), and on a double fault report a 500 error object. -/
def GETpodcasts (dbOk webflowOk : Bool) (db : Db) (dateMs : String → ℤ)
    (episodes : List PodcastsLib.Episode) (tagItems : List PodcastsLib.TagItem)
    (tagIds : List String) : GetResult :=
  if dbOk then .dbJson (fetchFromDatabase db tagIds)
  else if webflowOk then .webflowJson (fetchFromWebflow dateMs episodes tagItems tagIds)
  else .errorResult

end ApiPodcasts

/-! ## Derived notions used by the statements -/

/-- The resolved incoming tag set: the local tag ids the junction loop
inserts — each incoming external reference looked up in the `tags`
table, unresolvable references dropped. -/
def resolvedTagIds (tagsTable : List TagRow) (tagWebflowIds : List String) : List String :=
  tagWebflowIds.filterMap (fun tagWebflowId =>
    (tagsTable.find? (fun t => t.webflowItemId = tagWebflowId)).map (fun t => t.id))

/-- The local id an upsert of external id `payloadId` works with: the id
of the existing row if one matches, else the freshly generated one. -/
def upsertedStoryId (payloadId freshId : String) (db : Db) : String :=
  match db.stories.find? (fun r => r.webflowItemId = payloadId) with
  | some existing => existing.id
  | none => freshId

/-- The §3 data-model invariant: every persisted entity row of every
kind has non-null latitude and longitude. -/
def coordsInvariant (db : Db) : Prop :=
  (∀ r ∈ db.stories, r.latitude.isSome = true ∧ r.longitude.isSome = true) ∧
  (∀ r ∈ db.places, r.latitude.isSome = true ∧ r.longitude.isSome = true) ∧
  (∀ r ∈ db.initiatives, r.latitude.isSome = true ∧ r.longitude.isSome = true)

/-! ## Lemmas about the junction replacement -/

namespace CmsSync

lemma syncPodcastTagJunction_fold (podcastId : String) (tws : List String) : ∀ acc : Db,
    tws.foldl
      (fun acc tagWebflowId =>
        match acc.tags.find? (fun t => t.webflowItemId = tagWebflowId) with
        | some t => { acc with storyTags := acc.storyTags ++ [{ storyId := podcastId, tagId := t.id }] }
        | none => acc)
      acc =
    { acc with
      storyTags := acc.storyTags ++
        (resolvedTagIds acc.tags tws).map (fun tid => { storyId := podcastId, tagId := tid }) } := by
  induction tws with
  | nil => intro acc; simp [resolvedTagIds]
  | cons tw tws ih =>
    intro acc
    rcases h : acc.tags.find? (fun t => t.webflowItemId = tw) with _ | t
    · simp only [List.foldl_cons, h]
      rw [ih acc]
      simp [resolvedTagIds, h]
    · simp only [List.foldl_cons, h]
      rw [ih]
      simp [resolvedTagIds, h, List.append_assoc]

/-- Closed form of the junction replacement: everything of this entity
is removed, then exactly the resolved incoming references are appended. -/
lemma syncPodcastTagJunction_eq (podcastId : String) (tws : List String) (db : Db) :
    syncPodcastTagJunction podcastId tws db =
    { db with
      storyTags := db.storyTags.filter (fun j => ¬ (j.storyId = podcastId)) ++
        (resolvedTagIds db.tags tws).map (fun tid => { storyId := podcastId, tagId := tid }) } := by
  unfold syncPodcastTagJunction
  rw [syncPodcastTagJunction_fold]

lemma syncPlaceTagJunction_fold (placeId : String) (tws : List String) : ∀ acc : Db,
    tws.foldl
      (fun acc tagWebflowId =>
        match acc.tags.find? (fun t => t.webflowItemId = tagWebflowId) with
        | some t => { acc with placeTags := acc.placeTags ++ [{ placeId := placeId, tagId := t.id }] }
        | none => acc)
      acc =
    { acc with
      placeTags := acc.placeTags ++
        (resolvedTagIds acc.tags tws).map (fun tid => { placeId := placeId, tagId := tid }) } := by
  induction tws with
  | nil => intro acc; simp [resolvedTagIds]
  | cons tw tws ih =>
    intro acc
    rcases h : acc.tags.find? (fun t => t.webflowItemId = tw) with _ | t
    · simp only [List.foldl_cons, h]
      rw [ih acc]
      simp [resolvedTagIds, h]
    · simp only [List.foldl_cons, h]
      rw [ih]
      simp [resolvedTagIds, h, List.append_assoc]

lemma syncPlaceTagJunction_eq (placeId : String) (tws : List String) (db : Db) :
    syncPlaceTagJunction placeId tws db =
    { db with
      placeTags := db.placeTags.filter (fun j => ¬ (j.placeId = placeId)) ++
        (resolvedTagIds db.tags tws).map (fun tid => { placeId := placeId, tagId := tid }) } := by
  unfold syncPlaceTagJunction
  rw [syncPlaceTagJunction_fold]

lemma syncInitiativeTagJunction_fold (initiativeId : String) (tws : List String) : ∀ acc : Db,
    tws.foldl
      (fun acc tagWebflowId =>
        match acc.tags.find? (fun t => t.webflowItemId = tagWebflowId) with
        | some t =>
          { acc with initiativeTags := acc.initiativeTags ++ [{ initiativeId := initiativeId, tagId := t.id }] }
        | none => acc)
      acc =
    { acc with
      initiativeTags := acc.initiativeTags ++
        (resolvedTagIds acc.tags tws).map (fun tid => { initiativeId := initiativeId, tagId := tid }) } := by
  induction tws with
  | nil => intro acc; simp [resolvedTagIds]
  | cons tw tws ih =>
    intro acc
    rcases h : acc.tags.find? (fun t => t.webflowItemId = tw) with _ | t
    · simp only [List.foldl_cons, h]
      rw [ih acc]
      simp [resolvedTagIds, h]
    · simp only [List.foldl_cons, h]
      rw [ih]
      simp [resolvedTagIds, h, List.append_assoc]

lemma syncInitiativeTagJunction_eq (initiativeId : String) (tws : List String) (db : Db) :
    syncInitiativeTagJunction initiativeId tws db =
    { db with
      initiativeTags := db.initiativeTags.filter (fun j => ¬ (j.initiativeId = initiativeId)) ++
        (resolvedTagIds db.tags tws).map (fun tid => { initiativeId := initiativeId, tagId := tid }) } := by
  unfold syncInitiativeTagJunction
  rw [syncInitiativeTagJunction_fold]

/-! ### Preservation of the non-null coordinate invariant -/

lemma coordsInvariant_upsertTag (freshId payloadId : String) (fd : FieldData) (db : Db)
    (h : coordsInvariant db) : coordsInvariant (upsertTag freshId payloadId fd db) := by
  unfold upsertTag
  rcases hf : db.tags.find? (fun t => t.webflowItemId = payloadId) with _ | t <;>
    simp only [hf] <;> exact ⟨h.1, h.2.1, h.2.2⟩

lemma coordsInvariant_deleteTag (webflowItemId : String) (db : Db)
    (h : coordsInvariant db) : coordsInvariant (deleteTag webflowItemId db) := by
  unfold deleteTag
  rcases hf : db.tags.find? (fun t => t.webflowItemId = webflowItemId) with _ | t <;>
    simp only [hf] <;> exact ⟨h.1, h.2.1, h.2.2⟩

lemma coordsInvariant_deletePodcast (webflowItemId : String) (db : Db)
    (h : coordsInvariant db) : coordsInvariant (deletePodcast webflowItemId db) := by
  unfold deletePodcast
  rcases hf : db.stories.find? (fun r => r.webflowItemId = webflowItemId) with _ | r0 <;>
    simp only [hf]
  · exact h
  · refine ⟨?_, h.2.1, h.2.2⟩
    intro r hr
    exact h.1 r (List.mem_of_mem_filter hr)

lemma coordsInvariant_deletePlace (webflowItemId : String) (db : Db)
    (h : coordsInvariant db) : coordsInvariant (deletePlace webflowItemId db) := by
  unfold deletePlace
  rcases hf : db.places.find? (fun r => r.webflowItemId = webflowItemId) with _ | r0 <;>
    simp only [hf]
  · exact h
  · refine ⟨h.1, ?_, h.2.2⟩
    intro r hr
    exact h.2.1 r (List.mem_of_mem_filter hr)

lemma coordsInvariant_deleteInitiative (webflowItemId : String) (db : Db)
    (h : coordsInvariant db) : coordsInvariant (deleteInitiative webflowItemId db) := by
  unfold deleteInitiative
  rcases hf : db.initiatives.find? (fun r => r.webflowItemId = webflowItemId) with _ | r0 <;>
    simp only [hf]
  · exact h
  · refine ⟨h.1, h.2.1, ?_⟩
    intro r hr
    exact h.2.2 r (List.mem_of_mem_filter hr)

lemma coordsInvariant_upsertPodcast (nowIso freshId payloadId : String) (fd : FieldData) (db : Db)
    (h : coordsInvariant db) : coordsInvariant (upsertPodcast nowIso freshId payloadId fd db) := by
  unfold upsertPodcast
  rcases hc : parseCoordinates fd with _ | c
  · exact h
  · rcases hf : db.stories.find? (fun r => r.webflowItemId = payloadId) with _ | r0 <;>
      simp only [hf, syncPodcastTagJunction_eq]
    · refine ⟨?_, h.2.1, h.2.2⟩
      intro r hr
      rcases List.mem_append.mp hr with hr | hr
      · exact h.1 r hr
      · rcases List.mem_singleton.mp hr with rfl
        simp [newStoryRow]
    · refine ⟨?_, h.2.1, h.2.2⟩
      intro r hr
      rcases List.mem_map.mp hr with ⟨s, hs, rfl⟩
      unfold updateStoryRow
      split
      · simp
      · exact h.1 s hs

lemma coordsInvariant_upsertPlace (nowIso freshId payloadId : String) (fd : FieldData) (db : Db)
    (h : coordsInvariant db) : coordsInvariant (upsertPlace nowIso freshId payloadId fd db) := by
  unfold upsertPlace
  rcases hc : parseCoordinates fd with _ | c
  · exact h
  · rcases hf : db.places.find? (fun r => r.webflowItemId = payloadId) with _ | r0 <;>
      simp only [hf, syncPlaceTagJunction_eq]
    · refine ⟨h.1, ?_, h.2.2⟩
      intro r hr
      rcases List.mem_append.mp hr with hr | hr
      · exact h.2.1 r hr
      · rcases List.mem_singleton.mp hr with rfl
        simp [newPlaceRow]
    · refine ⟨h.1, ?_, h.2.2⟩
      intro r hr
      rcases List.mem_map.mp hr with ⟨s, hs, rfl⟩
      unfold updatePlaceRow
      split
      · simp
      · exact h.2.1 s hs

lemma coordsInvariant_upsertInitiative (nowIso freshId payloadId : String) (fd : FieldData) (db : Db)
    (h : coordsInvariant db) : coordsInvariant (upsertInitiative nowIso freshId payloadId fd db) := by
  unfold upsertInitiative
  rcases hc : parseCoordinates fd with _ | c
  · exact h
  · rcases hf : db.initiatives.find? (fun r => r.webflowItemId = payloadId) with _ | r0 <;>
      simp only [hf, syncInitiativeTagJunction_eq]
    · refine ⟨h.1, h.2.1, ?_⟩
      intro r hr
      rcases List.mem_append.mp hr with hr | hr
      · exact h.2.2 r hr
      · rcases List.mem_singleton.mp hr with rfl
        simp [newInitiativeRow]
    · refine ⟨h.1, h.2.1, ?_⟩
      intro r hr
      rcases List.mem_map.mp hr with ⟨s, hs, rfl⟩
      unfold updateInitiativeRow
      split
      · simp
      · exact h.2.2 s hs

lemma coordsInvariant_handleWebhook (hmacHex : String → String → String) (now : ℤ)
    (nowIso freshId : String) (env : Env) (req : WebhookRequest) (db : Db)
    (h : coordsInvariant db) :
    coordsInvariant (handleWebhook hmacHex now nowIso freshId env req db).2 := by
  unfold handleWebhook
  rcases hts : req.tsHeader with _ | ts <;> rcases hsig : req.sigHeader with _ | sig <;>
    simp only [hts, hsig]
  · exact h
  · exact h
  · exact h
  · split
    · exact h
    · split
      · exact h
      · rcases hl : collectionLookup env req.collectionId with _ | ct <;> simp only [hl]
        · exact h
        · cases ct <;> dsimp only <;> split
          · exact coordsInvariant_deletePodcast _ _ h
          · exact coordsInvariant_upsertPodcast _ _ _ _ _ h
          · exact coordsInvariant_deletePlace _ _ h
          · exact coordsInvariant_upsertPlace _ _ _ _ _ h
          · exact coordsInvariant_deleteInitiative _ _ h
          · exact coordsInvariant_upsertInitiative _ _ _ _ _ h
          · exact coordsInvariant_deleteTag _ _ h
          · exact coordsInvariant_upsertTag _ _ _ _ h

end CmsSync

namespace FullSync

lemma coordsInvariant_syncStoriesStep (nowIso : String) (st : SyncState) (item : WebflowItem)
    (h : coordsInvariant st.db) : coordsInvariant (syncStoriesStep nowIso st item).db := by
  unfold syncStoriesStep
  rcases hc : CmsSync.parseCoordinates item.fieldData with _ | c
  · exact h
  · rcases hf : st.db.stories.find? (fun r => r.webflowItemId = item.id) with _ | r0 <;>
      simp only [hf] <;> split <;>
      (try simp only [CmsSync.syncPodcastTagJunction_eq])
    · refine ⟨?_, h.2.1, h.2.2⟩
      intro r hr
      rcases List.mem_append.mp hr with hr | hr
      · exact h.1 r hr
      · rcases List.mem_singleton.mp hr with rfl
        simp [CmsSync.newStoryRow]
    · refine ⟨?_, h.2.1, h.2.2⟩
      intro r hr
      rcases List.mem_append.mp hr with hr | hr
      · exact h.1 r hr
      · rcases List.mem_singleton.mp hr with rfl
        simp [CmsSync.newStoryRow]
    · refine ⟨?_, h.2.1, h.2.2⟩
      intro r hr
      rcases List.mem_map.mp hr with ⟨s, hs, rfl⟩
      unfold CmsSync.updateStoryRow
      split
      · simp
      · exact h.1 s hs
    · refine ⟨?_, h.2.1, h.2.2⟩
      intro r hr
      rcases List.mem_map.mp hr with ⟨s, hs, rfl⟩
      unfold CmsSync.updateStoryRow
      split
      · simp
      · exact h.1 s hs

lemma coordsInvariant_syncStories (nowIso : String) (items : List WebflowItem) : ∀ st : SyncState,
    coordsInvariant st.db → coordsInvariant (syncStories nowIso items st).db := by
  induction items with
  | nil => intro st h; exact h
  | cons item items ih =>
    intro st h
    exact ih _ (coordsInvariant_syncStoriesStep nowIso st item h)

end FullSync

example : jsParseFloat "4.3" = some ⟨43, -1⟩ := by decide
example : jsParseFloat "not-a-number" = none := by decide
example : jsParseFloat "52.01" = some ⟨5201, -2⟩ := by decide
example : jsParseInt "1000000" = some 1000000 := by decide
example : parseCoordString "52.01, 4.35" = some ⟨⟨5201, -2⟩, ⟨435, -2⟩⟩ := by decide
example : parseCoordString "not-a-number, 4.3" = none := by decide
example :
    CmsSync.parseCoordinates
      { locationCoordinates := some "not-a-number, 4.3",
        latitude2 := some (.num ⟨1, 0⟩), longitude2 := some (.num ⟨2, 0⟩) } =
      some ⟨⟨1, 0⟩, ⟨2, 0⟩⟩ := by
  decide

/-! ## Claims -/

/-- C2 counterexample: the spec says the Coordinate Parser rejects an
item whose combined coordinate string is present but unparseable even
when valid discrete fields are present; the sync-path `parseCoordinates`
instead falls back to the discrete `latitude-2`/`longitude-2` fields and
accepts the item. -/
theorem claim2_counterexample :
    parseCoordString "not-a-number, 4.3" = none ∧
    CmsSync.parseCoordinates
      { locationCoordinates := some "not-a-number, 4.3",
        latitude2 := some (.num ⟨1, 0⟩), longitude2 := some (.num ⟨2, 0⟩) } =
      some ⟨⟨1, 0⟩, ⟨2, 0⟩⟩ := by
  exact ⟨by decide, by decide⟩

/-- C2 (amended): the read-path `transformEpisode` behaves as the spec
says — a present-but-unparseable combined coordinate field rejects the
item outright; but the sync-path `parseCoordinates` (webhook route and
full-sync route) consults the discrete fields whenever the combined
field is absent *or fails to parse*, behaving exactly as if the combined
field were absent. -/
theorem claim2_coordinate_precedence_amended :
    (∀ (ep : PodcastsLib.Episode) (tagsList : List PodcastsLib.TagOut) (s : String),
      ep.locationCoordinates = some s → s ≠ "" → parseCoordString s = none →
      PodcastsLib.transformEpisode ep tagsList = none) ∧
    (∀ (fd : FieldData) (s : String),
      fd.locationCoordinates = some s → s ≠ "" → parseCoordString s = none →
      CmsSync.parseCoordinates fd =
        CmsSync.parseCoordinates { fd with locationCoordinates := none }) := by
  constructor
  · intro ep tagsList s hs hne hparse
    unfold PodcastsLib.transformEpisode
    simp [jsStrOrNull, hs, hne, hparse]
  · intro fd s hs hne hparse
    unfold CmsSync.parseCoordinates
    simp [hs, hne, hparse]

/-- Witness for C2 (amended) at a concrete episode and field bag. -/
theorem claim2_coordinate_precedence_witness :
    PodcastsLib.transformEpisode
      { id := "e1", locationCoordinates := some "x, 1",
        latitude2 := some "1", longitude2 := some "2" } [] = none ∧
    CmsSync.parseCoordinates
      { locationCoordinates := some "x, 1",
        latitude2 := some (.num ⟨1, 0⟩), longitude2 := some (.num ⟨2, 0⟩) } =
      CmsSync.parseCoordinates
        { locationCoordinates := none,
          latitude2 := some (.num ⟨1, 0⟩), longitude2 := some (.num ⟨2, 0⟩) } :=
  ⟨claim2_coordinate_precedence_amended.1 _ [] "x, 1" rfl (by decide) (by decide),
   claim2_coordinate_precedence_amended.2 _ "x, 1" rfl (by decide) (by decide)⟩

/-- C4 counterexample: with no shared secret configured, a request
missing both signature headers is still rejected 401 — the header
presence check runs before the secret is consulted, so "never rejected
with a 401 regardless of whether the headers are present" is false. -/
theorem claim4_counterexample :
    CmsSync.handleWebhook (fun _ _ => "") 0 "now" "f1"
      { webhookSecret := none, storiesCollectionId := some "col-stories" }
      { tsHeader := none, sigHeader := none, body := "b",
        triggerType := "collection_item_changed", payloadId := "e1",
        collectionId := "col-stories", fieldData := {} }
      {} = (401, {}) := by
  decide

/-- C4 (amended): with no secret configured, a request carrying both
headers (nonempty, as JS truthiness demands) is implicitly
authenticated — it is never rejected 401, for every digest function,
timestamp and signature content, and processing proceeds to routing
(status 200); but a request missing either header is rejected 401 even
when no secret is configured. -/
theorem claim4_no_secret_amended :
    (∀ (hmacHex : String → String → String) (now : ℤ) (nowIso freshId : String)
      (env : CmsSync.Env) (req : CmsSync.WebhookRequest) (db : Db) (ts sig : String),
      env.webhookSecret.getD "" = "" →
      req.tsHeader = some ts → ts ≠ "" → req.sigHeader = some sig → sig ≠ "" →
      (CmsSync.handleWebhook hmacHex now nowIso freshId env req db).1 = 200) ∧
    (∀ (hmacHex : String → String → String) (now : ℤ) (nowIso freshId : String)
      (env : CmsSync.Env) (req : CmsSync.WebhookRequest) (db : Db),
      req.tsHeader = none ∨ req.sigHeader = none →
      CmsSync.handleWebhook hmacHex now nowIso freshId env req db = (401, db)) := by
  constructor
  · intro hm now ni fi env req db ts sig hsec hts htne hsig hsne
    unfold CmsSync.handleWebhook
    simp only [hts, hsig]
    rw [if_neg (by rintro (h | h); exact htne h; exact hsne h)]
    simp only [hsec]
    rw [if_neg (by simp)]
    rcases hl : CmsSync.collectionLookup env req.collectionId with _ | ct <;> simp only [hl]
    cases ct <;> rfl
  · intro hm now ni fi env req db hnone
    unfold CmsSync.handleWebhook
    rcases hnone with h | h
    · rw [h]
    · rw [h]
      rcases req.tsHeader with _ | s <;> rfl

/-- Witness for C4 (amended) at a concrete request (no secret, both
headers present / timestamp header missing). -/
theorem claim4_no_secret_witness :
    (CmsSync.handleWebhook (fun _ _ => "d") 0 "now" "f1"
      { webhookSecret := none, storiesCollectionId := some "colS" }
      { tsHeader := some "1", sigHeader := some "x", body := "b",
        triggerType := "collection_item_changed", payloadId := "e1",
        collectionId := "other", fieldData := {} } {}).1 = 200 ∧
    CmsSync.handleWebhook (fun _ _ => "d") 0 "now" "f1"
      { webhookSecret := none, storiesCollectionId := some "colS" }
      { tsHeader := none, sigHeader := some "x", body := "b",
        triggerType := "collection_item_changed", payloadId := "e1",
        collectionId := "colS", fieldData := {} } {} = (401, {}) :=
  ⟨claim4_no_secret_amended.1 _ 0 "now" "f1" _ _ {} "1" "x" rfl rfl (by decide) rfl (by decide),
   claim4_no_secret_amended.2 _ 0 "now" "f1" _ _ {} (Or.inl rfl)⟩

/-- C5 (confirmed): with a secret configured and both headers present, a
request whose timestamp parses to more than 300000 ms before the current
time is rejected 401 with the store untouched — for every digest
function and presented signature, i.e. regardless of signature
validity.  A timestamp exactly 301 s old satisfies `now - t > 300000`. -/
theorem claim5_stale_timestamp_rejected
    (hmacHex : String → String → String) (now : ℤ) (nowIso freshId : String)
    (env : CmsSync.Env) (req : CmsSync.WebhookRequest) (db : Db)
    (ts sig secret : String) (t : ℤ)
    (hts : req.tsHeader = some ts) (hsig : req.sigHeader = some sig) (hsne : sig ≠ "")
    (hsecret : env.webhookSecret = some secret) (hsecne : secret ≠ "")
    (hparse : jsParseInt ts = some t) (hstale : now - t > 300000) :
    CmsSync.handleWebhook hmacHex now nowIso freshId env req db = (401, db) := by
  have htne : ts ≠ "" := by
    intro h
    rw [h, show jsParseInt "" = none from by decide] at hparse
    simp at hparse
  have hv : CmsSync.verifySignature hmacHex ts req.body sig secret now = false := by
    unfold CmsSync.verifySignature
    rw [if_neg (by rintro (h | h | h); exact htne h; exact hsne h; exact hsecne h)]
    simp [hparse, hstale]
  unfold CmsSync.handleWebhook
  simp only [hts, hsig]
  rw [if_neg (by rintro (h | h); exact htne h; exact hsne h)]
  simp only [hsecret, Option.getD_some]
  rw [if_pos ⟨hsecne, hv⟩]

/-- Witness for C5 at a concrete request: timestamp `1000000` ms,
current time 301 s later. -/
theorem claim5_stale_timestamp_witness :
    CmsSync.handleWebhook (fun _ _ => "sig") 1301000 "now" "f1"
      { webhookSecret := some "s3cret", storiesCollectionId := some "colS" }
      { tsHeader := some "1000000", sigHeader := some "sig", body := "b",
        triggerType := "collection_item_changed", payloadId := "e1",
        collectionId := "colS", fieldData := {} } {} = (401, {}) :=
  claim5_stale_timestamp_rejected _ 1301000 "now" "f1" _ _ {} "1000000" "sig" "s3cret" 1000000
    rfl rfl (by decide) rfl (by decide) (by decide) (by decide)

/-- C7 counterexample: after a page with no items whose reported total
(5) exceeds the accumulated count (0), the pagination loop does not
stop — it consumes the page and issues another request (`none` means the
loop ran past every provided response). -/
theorem claim7_counterexample :
    FullSync.fetchWebflowItemsLoop
      [{ items := [], pagination := some { limit := 100, offset := 0, total := 5 } }] [] = none := by
  decide

/-- C7 (amended): the loop stops exactly on a response without a
`pagination` member or one whose reported total is already covered by
the accumulated items; an empty page with a larger reported total does
not stop it — if every response is such a page the loop never
terminates (formally: it exhausts any number of provided responses). -/
theorem claim7_pagination_amended :
    (∀ (items : List WebflowItem) (rest : List FullSync.PageResponse) (acc : List WebflowItem),
      FullSync.fetchWebflowItemsLoop ({ items := items, pagination := none } :: rest) acc =
        some (acc ++ items)) ∧
    (∀ (items : List WebflowItem) (p : FullSync.Pagination) (rest : List FullSync.PageResponse)
      (acc : List WebflowItem), (acc ++ items).length ≥ p.total →
      FullSync.fetchWebflowItemsLoop ({ items := items, pagination := some p } :: rest) acc =
        some (acc ++ items)) ∧
    (∀ (n limit off : Nat) (acc : List WebflowItem),
      FullSync.fetchWebflowItemsLoop
        (List.replicate n
          { items := [], pagination := some { limit := limit, offset := off, total := acc.length + 1 } })
        acc = none) := by
  refine ⟨?_, ?_, ?_⟩
  · intro items rest acc
    rfl
  · intro items p rest acc h
    unfold FullSync.fetchWebflowItemsLoop
    dsimp only
    rw [if_pos h]
  · intro n limit off acc
    induction n with
    | zero => rfl
    | succ m ih =>
      rw [List.replicate_succ]
      unfold FullSync.fetchWebflowItemsLoop
      dsimp only
      rw [if_neg (by simp)]
      simpa using ih

/-- Witness for C7 (amended): a page with `total` already reached stops
the loop. -/
theorem claim7_pagination_witness :
    FullSync.fetchWebflowItemsLoop
      [{ items := [{ id := "e1", fieldData := {} }],
         pagination := some { limit := 100, offset := 0, total := 1 } }] [] =
      some [{ id := "e1", fieldData := {} }] :=
  claim7_pagination_amended.2.1 [{ id := "e1", fieldData := {} }] _ [] [] (by decide)

/-- C9 (confirmed): an authenticated request (both headers present, and
either no secret configured or the signature verifying) whose collection
id maps to no configured kind is acknowledged 200 with the store
entirely unchanged. -/
theorem claim9_unknown_collection_noop
    (hmacHex : String → String → String) (now : ℤ) (nowIso freshId : String)
    (env : CmsSync.Env) (req : CmsSync.WebhookRequest) (db : Db) (ts sig : String)
    (hts : req.tsHeader = some ts) (htne : ts ≠ "")
    (hsig : req.sigHeader = some sig) (hsne : sig ≠ "")
    (hauth : env.webhookSecret.getD "" = "" ∨
      CmsSync.verifySignature hmacHex ts req.body sig (env.webhookSecret.getD "") now = true)
    (hl : CmsSync.collectionLookup env req.collectionId = none) :
    CmsSync.handleWebhook hmacHex now nowIso freshId env req db = (200, db) := by
  unfold CmsSync.handleWebhook
  simp only [hts, hsig]
  rw [if_neg (by rintro (h | h); exact htne h; exact hsne h)]
  rw [if_neg (by rintro ⟨hne, hfalse⟩; rcases hauth with h | h; exact hne h; rw [h] at hfalse; cases hfalse)]
  simp only [hl]

/-- Witness for C9 at a concrete request with an unmapped collection id. -/
theorem claim9_unknown_collection_witness :
    CmsSync.handleWebhook (fun _ _ => "d") 0 "now" "f1"
      { webhookSecret := none, storiesCollectionId := some "colS",
        storyTagsCollectionId := some "colT" }
      { tsHeader := some "1", sigHeader := some "x", body := "b",
        triggerType := "collection_item_changed", payloadId := "e1",
        collectionId := "col-unknown",
        fieldData := { name := "T", locationCoordinates := some "52.01, 4.35" } }
      { stories := [{ id := "s1", webflowItemId := "e9", title := "Old",
                      latitude := some ⟨1, 0⟩, longitude := some ⟨2, 0⟩ }] } =
      (200, { stories := [{ id := "s1", webflowItemId := "e9", title := "Old",
                            latitude := some ⟨1, 0⟩, longitude := some ⟨2, 0⟩ }] }) :=
  claim9_unknown_collection_noop _ 0 "now" "f1" _ _ _ "1" "x"
    rfl (by decide) rfl (by decide) (Or.inl rfl) (by decide)

lemma junction_rows_of_entity (pid : String) (F : List StoryTagRow) (tids : List String)
    (hF : ∀ j ∈ F, ¬ (j.storyId = pid)) :
    ((F ++ tids.map (fun tid => ({ storyId := pid, tagId := tid } : StoryTagRow))).filter
        (fun j => j.storyId = pid)).map (fun j => j.tagId) = tids := by
  rw [List.filter_append, List.filter_map]
  rw [List.filter_eq_nil_iff.mpr (fun a ha => by simpa using hF a ha)]
  rw [List.filter_eq_self.mpr (fun a _ => by simp [Function.comp])]
  simp only [List.nil_append, List.map_map]
  exact List.map_id' tids

/-- C1 counterexample: in the full-reconciliation path, upserting an
existing story whose incoming tag set is empty leaves the prior junction
row in place (the junction replacement is skipped by the
`if (tagIds.length > 0)` guard), so the junction set does not equal the
resolved incoming set. -/
theorem claim1_counterexample :
    (FullSync.syncStories "t1"
      [{ id := "e1",
         fieldData := { name := "Forest", locationCoordinates := some "52.01, 4.35",
                        episodeTags := some [] } }]
      { db := { stories := [{ id := "s1", webflowItemId := "e1", title := "Old",
                              latitude := some ⟨1, 0⟩, longitude := some ⟨2, 0⟩ }],
                tags := [{ id := "t1", webflowItemId := "w1", name := "Nature", slug := none }],
                storyTags := [{ storyId := "s1", tagId := "t1" }] },
        freshIds := ["f1"], count := 0 }).db.storyTags =
      [{ storyId := "s1", tagId := "t1" }] := by
  decide

/-- C1 (amended): after a webhook upsert the entity's junction rows
exactly equal the resolved incoming tag set, for every prior/incoming
combination including the empty incoming set; in the full-reconciliation
path the same holds whenever the incoming tag list is nonempty, while an
empty incoming list leaves the prior junction rows unchanged (see the
counterexample). -/
theorem claim1_tag_replacement_amended :
    (∀ (nowIso freshId payloadId : String) (fd : FieldData) (db : Db) (c : Coords),
      CmsSync.parseCoordinates fd = some c →
      ((CmsSync.upsertPodcast nowIso freshId payloadId fd db).storyTags.filter
          (fun j => j.storyId = upsertedStoryId payloadId freshId db)).map (fun j => j.tagId) =
        resolvedTagIds db.tags (fd.episodeTags.getD [])) ∧
    (∀ (nowIso : String) (st : FullSync.SyncState) (item : WebflowItem) (c : Coords),
      CmsSync.parseCoordinates item.fieldData = some c →
      item.fieldData.episodeTags.getD [] ≠ [] →
      ((FullSync.syncStoriesStep nowIso st item).db.storyTags.filter
          (fun j => j.storyId = upsertedStoryId item.id (st.freshIds.headD "") st.db)).map
          (fun j => j.tagId) =
        resolvedTagIds st.db.tags (item.fieldData.episodeTags.getD [])) := by
  constructor
  · intro nowIso freshId payloadId fd db c hc
    unfold CmsSync.upsertPodcast
    simp only [hc]
    rcases hf : db.stories.find? (fun r => r.webflowItemId = payloadId) with _ | r0 <;>
      simp only [hf, CmsSync.syncPodcastTagJunction_eq, upsertedStoryId] <;>
      exact junction_rows_of_entity _ _ _ (fun j hj => by simpa using (List.mem_filter.mp hj).2)
  · intro nowIso st item c hc hne
    unfold FullSync.syncStoriesStep
    simp only [hc]
    rcases hf : st.db.stories.find? (fun r => r.webflowItemId = item.id) with _ | r0 <;>
      simp only [hf] <;>
      rw [if_pos (List.length_pos.mpr hne)] <;>
      simp only [CmsSync.syncPodcastTagJunction_eq, upsertedStoryId, hf] <;>
      exact junction_rows_of_entity _ _ _ (fun j hj => by simpa using (List.mem_filter.mp hj).2)

/-- Witness for C1 (amended): a webhook upsert replacing `{B, C}` with
`{A, B}` and a reconciliation upsert with a nonempty incoming set. -/
theorem claim1_tag_replacement_witness :
    ((CmsSync.upsertPodcast "t1" "f1" "e1"
        { name := "Forest", locationCoordinates := some "52.01, 4.35",
          episodeTags := some ["wA", "wB"] }
        { stories := [{ id := "s1", webflowItemId := "e1", title := "Old",
                        latitude := some ⟨1, 0⟩, longitude := some ⟨2, 0⟩ }],
          tags := [{ id := "tA", webflowItemId := "wA", name := "A", slug := none },
                   { id := "tB", webflowItemId := "wB", name := "B", slug := none },
                   { id := "tC", webflowItemId := "wC", name := "C", slug := none }],
          storyTags := [{ storyId := "s1", tagId := "tB" }, { storyId := "s1", tagId := "tC" }] }).storyTags.filter
        (fun j => j.storyId = upsertedStoryId "e1" "f1"
          { stories := [{ id := "s1", webflowItemId := "e1", title := "Old",
                          latitude := some ⟨1, 0⟩, longitude := some ⟨2, 0⟩ }],
            tags := [{ id := "tA", webflowItemId := "wA", name := "A", slug := none },
                     { id := "tB", webflowItemId := "wB", name := "B", slug := none },
                     { id := "tC", webflowItemId := "wC", name := "C", slug := none }],
            storyTags := [{ storyId := "s1", tagId := "tB" }, { storyId := "s1", tagId := "tC" }] })).map
      (fun j => j.tagId) = ["tA", "tB"] := by
  have h := claim1_tag_replacement_amended.1 "t1" "f1" "e1"
    { name := "Forest", locationCoordinates := some "52.01, 4.35",
      episodeTags := some ["wA", "wB"] }
    { stories := [{ id := "s1", webflowItemId := "e1", title := "Old",
                    latitude := some ⟨1, 0⟩, longitude := some ⟨2, 0⟩ }],
      tags := [{ id := "tA", webflowItemId := "wA", name := "A", slug := none },
               { id := "tB", webflowItemId := "wB", name := "B", slug := none },
               { id := "tC", webflowItemId := "wC", name := "C", slug := none }],
      storyTags := [{ storyId := "s1", tagId := "tB" }, { storyId := "s1", tagId := "tC" }] }
    ⟨⟨5201, -2⟩, ⟨435, -2⟩⟩ (by decide)
  rw [h]
  decide

/-- C3 (confirmed): the non-null coordinate invariant is preserved by
every webhook request (upsert and delete of every kind) and by the
full-reconciliation story sync; an item whose coordinate extraction
fails is never persisted — the webhook upsert leaves the store untouched
and the reconciliation loop skips the item and continues with the rest
of the batch. -/
theorem claim3_coordinate_invariant :
    (∀ (hmacHex : String → String → String) (now : ℤ) (nowIso freshId : String)
      (env : CmsSync.Env) (req : CmsSync.WebhookRequest) (db : Db),
      coordsInvariant db →
      coordsInvariant (CmsSync.handleWebhook hmacHex now nowIso freshId env req db).2) ∧
    (∀ (nowIso : String) (items : List WebflowItem) (st : FullSync.SyncState),
      coordsInvariant st.db → coordsInvariant (FullSync.syncStories nowIso items st).db) ∧
    (∀ (nowIso freshId payloadId : String) (fd : FieldData) (db : Db),
      CmsSync.parseCoordinates fd = none →
      CmsSync.upsertPodcast nowIso freshId payloadId fd db = db) ∧
    (∀ (nowIso : String) (item : WebflowItem) (rest : List WebflowItem) (st : FullSync.SyncState),
      CmsSync.parseCoordinates item.fieldData = none →
      FullSync.syncStories nowIso (item :: rest) st = FullSync.syncStories nowIso rest st) := by
  refine ⟨?_, ?_, ?_, ?_⟩
  · intro hm now ni fi env req db h
    exact CmsSync.coordsInvariant_handleWebhook hm now ni fi env req db h
  · intro nowIso items st h
    exact FullSync.coordsInvariant_syncStories nowIso items st h
  · intro nowIso freshId payloadId fd db h
    unfold CmsSync.upsertPodcast
    simp [h]
  · intro nowIso item rest st h
    have hstep : FullSync.syncStoriesStep nowIso st item = st := by
      unfold FullSync.syncStoriesStep
      simp [h]
    unfold FullSync.syncStories
    rw [List.foldl_cons, hstep]

/-- Witness for C3 at a concrete request (insert into a store satisfying
the invariant) and a concrete coordinate-less item (skipped). -/
theorem claim3_coordinate_invariant_witness :
    coordsInvariant
      ((CmsSync.handleWebhook (fun _ _ => "d") 0 "now" "f1"
        { storiesCollectionId := some "colS" }
        { tsHeader := some "1", sigHeader := some "x", body := "",
          triggerType := "collection_item_changed", payloadId := "e1",
          collectionId := "colS",
          fieldData := { name := "T", locationCoordinates := some "52.01, 4.35" } }
        {}).2) ∧
    CmsSync.upsertPodcast "now" "f1" "e1" { name := "NoCoords" } {} = {} :=
  ⟨claim3_coordinate_invariant.1 _ 0 "now" "f1" _ _ {} (by simp [coordsInvariant]),
   claim3_coordinate_invariant.2.2.1 "now" "f1" "e1" { name := "NoCoords" } {} (by decide)⟩

/-- C6 counterexample: with an empty local store (query succeeds, zero
rows) the `/api/podcasts` endpoint returns the empty local result, not
the live-mapped external data — even though the live fetch would return
a nonempty list. -/
theorem claim6_counterexample :
    ApiPodcasts.GETpodcasts true true {} (fun _ => 0)
        [{ id := "e1", name := "Forest", locationCoordinates := some "52.01, 4.35" }] [] [] =
      .dbJson [] ∧
    ApiPodcasts.fetchFromWebflow (fun _ => 0)
        [{ id := "e1", name := "Forest", locationCoordinates := some "52.01, 4.35" }] [] [] ≠ [] := by
  exact ⟨by decide, by decide⟩

/-- C6 (amended): the data-layer accessor `getAllStories` does fall back
to the live fetch-and-map when the store query returns zero rows (and
when it throws); the `/api/podcasts` endpoint falls back only when the
store query throws — a successful empty query is served as the empty
local result. -/
theorem claim6_read_fallback_amended :
    (∀ (db : Db) (dateMs : String → ℤ) (episodes : List PodcastsLib.Episode)
      (storyTagList : List PodcastsLib.TagOut),
      DataLib.getStoriesFromDb db = [] →
      DataLib.getAllStories true db dateMs episodes storyTagList =
        .fromWebflow (PodcastsLib.getPodcastsFromWebflow dateMs episodes storyTagList none)) ∧
    (∀ (db : Db) (dateMs : String → ℤ) (episodes : List PodcastsLib.Episode)
      (tagItems : List PodcastsLib.TagItem) (tagIds : List String),
      ApiPodcasts.GETpodcasts false true db dateMs episodes tagItems tagIds =
        .webflowJson (ApiPodcasts.fetchFromWebflow dateMs episodes tagItems tagIds)) ∧
    (∀ (db : Db) (dateMs : String → ℤ) (episodes : List PodcastsLib.Episode)
      (tagItems : List PodcastsLib.TagItem) (tagIds : List String),
      ApiPodcasts.GETpodcasts true true db dateMs episodes tagItems tagIds =
        .dbJson (ApiPodcasts.fetchFromDatabase db tagIds)) := by
  refine ⟨?_, ?_, ?_⟩
  · intro db dateMs episodes storyTagList h
    unfold DataLib.getAllStories
    simp [h]
  · intro db dateMs episodes tagItems tagIds
    rfl
  · intro db dateMs episodes tagItems tagIds
    rfl

/-- Witness for C6 (amended) at the empty store. -/
theorem claim6_read_fallback_witness :
    DataLib.getAllStories true {} (fun _ => 0)
      [{ id := "e1", name := "Forest", locationCoordinates := some "52.01, 4.35" }] [] =
      .fromWebflow (PodcastsLib.getPodcastsFromWebflow (fun _ => 0)
        [{ id := "e1", name := "Forest", locationCoordinates := some "52.01, 4.35" }] [] none) :=
  claim6_read_fallback_amended.1 {} (fun _ => 0) _ [] (by decide)

/-- C10 (confirmed): the delete path is selected exactly by the two
trigger strings `collection_item_deleted` / `collection_item_unpublished`;
every other trigger value on an authenticated, routed request is
processed as a create-or-update upsert — in particular an unrecognized
trigger string mutates the store. -/
theorem claim10_trigger_dispatch :
    (∀ t : String, CmsSync.isDeleteTrigger t = true ↔
      (t = "collection_item_deleted" ∨ t = "collection_item_unpublished")) ∧
    (∀ (hmacHex : String → String → String) (now : ℤ) (nowIso freshId : String)
      (env : CmsSync.Env) (req : CmsSync.WebhookRequest) (db : Db) (ts sig : String),
      req.tsHeader = some ts → ts ≠ "" → req.sigHeader = some sig → sig ≠ "" →
      env.webhookSecret.getD "" = "" →
      CmsSync.collectionLookup env req.collectionId = some .podcast →
      CmsSync.handleWebhook hmacHex now nowIso freshId env req db =
        (200,
          if CmsSync.isDeleteTrigger req.triggerType then CmsSync.deletePodcast req.payloadId db
          else CmsSync.upsertPodcast nowIso freshId req.payloadId req.fieldData db)) ∧
    (CmsSync.handleWebhook (fun _ _ => "") 0 "2025-01-01" "f1"
        { storiesCollectionId := some "colS" }
        { tsHeader := some "1", sigHeader := some "x", body := "",
          triggerType := "collection_item_saved_draft", payloadId := "e1",
          collectionId := "colS",
          fieldData := { name := "T", locationCoordinates := some "52.01, 4.35" } } {}).2 ≠
      ({} : Db) := by
  refine ⟨?_, ?_, ?_⟩
  · intro t
    unfold CmsSync.isDeleteTrigger
    simp
  · intro hm now ni fi env req db ts sig hts htne hsig hsne hsec hl
    unfold CmsSync.handleWebhook
    simp only [hts, hsig]
    rw [if_neg (by rintro (h | h); exact htne h; exact hsne h)]
    simp only [hsec]
    rw [if_neg (by simp)]
    simp only [hl]
  · decide

/-- Witness for C10 at the two delete triggers and a routed update. -/
theorem claim10_trigger_dispatch_witness :
    (CmsSync.isDeleteTrigger "collection_item_unpublished" = true ↔
      ("collection_item_unpublished" = "collection_item_deleted" ∨
        "collection_item_unpublished" = "collection_item_unpublished")) ∧
    CmsSync.handleWebhook (fun _ _ => "") 0 "now" "f1" { storiesCollectionId := some "colS" }
      { tsHeader := some "1", sigHeader := some "x", body := "",
        triggerType := "collection_item_deleted", payloadId := "e1",
        collectionId := "colS", fieldData := {} } {} =
      (200,
        if CmsSync.isDeleteTrigger "collection_item_deleted" then CmsSync.deletePodcast "e1" ({} : Db)
        else CmsSync.upsertPodcast "now" "f1" "e1" {} {}) :=
  ⟨claim10_trigger_dispatch.1 _,
   claim10_trigger_dispatch.2.1 _ 0 "now" "f1" _ _ {} "1" "x" rfl (by decide) rfl (by decide)
     rfl (by decide)⟩

lemma updateStoryRow_webflowItemId (nowIso : String) (fd : FieldData) (c : Coords)
    (payloadId : String) (r : StoryRow) :
    (CmsSync.updateStoryRow nowIso fd c payloadId r).webflowItemId = r.webflowItemId := by
  unfold CmsSync.updateStoryRow
  split <;> rfl

lemma updateStoryRow_id (nowIso : String) (fd : FieldData) (c : Coords)
    (payloadId : String) (r : StoryRow) :
    (CmsSync.updateStoryRow nowIso fd c payloadId r).id = r.id := by
  unfold CmsSync.updateStoryRow
  split <;> rfl

lemma updateStoryRow_of_not (nowIso : String) (fd : FieldData) (c : Coords)
    (payloadId : String) (r : StoryRow) (h : ¬ (r.webflowItemId = payloadId)) :
    CmsSync.updateStoryRow nowIso fd c payloadId r = r := by
  unfold CmsSync.updateStoryRow
  rw [if_neg h]

lemma updateStoryRow_idem (nowIso : String) (fd : FieldData) (c : Coords)
    (payloadId : String) (r : StoryRow) :
    CmsSync.updateStoryRow nowIso fd c payloadId (CmsSync.updateStoryRow nowIso fd c payloadId r) =
      CmsSync.updateStoryRow nowIso fd c payloadId r := by
  by_cases h : r.webflowItemId = payloadId <;> simp [CmsSync.updateStoryRow, h]

lemma updateStoryRow_newStoryRow (nowIso freshId payloadId : String) (fd : FieldData) (c : Coords) :
    CmsSync.updateStoryRow nowIso fd c payloadId (CmsSync.newStoryRow nowIso freshId payloadId fd c) =
      CmsSync.newStoryRow nowIso freshId payloadId fd c := by
  simp [CmsSync.updateStoryRow, CmsSync.newStoryRow]

lemma upsertPodcast_insert (nowIso freshId payloadId : String) (fd : FieldData) (db : Db)
    (c : Coords) (hc : CmsSync.parseCoordinates fd = some c)
    (hf : db.stories.find? (fun r => r.webflowItemId = payloadId) = none) :
    CmsSync.upsertPodcast nowIso freshId payloadId fd db =
      { db with
        stories := db.stories ++ [CmsSync.newStoryRow nowIso freshId payloadId fd c],
        storyTags := db.storyTags.filter (fun j => ¬ (j.storyId = freshId)) ++
          (resolvedTagIds db.tags (fd.episodeTags.getD [])).map
            (fun tid => { storyId := freshId, tagId := tid }) } := by
  unfold CmsSync.upsertPodcast
  simp only [hc, hf, CmsSync.syncPodcastTagJunction_eq]

lemma upsertPodcast_update (nowIso freshId payloadId : String) (fd : FieldData) (db : Db)
    (c : Coords) (r0 : StoryRow) (hc : CmsSync.parseCoordinates fd = some c)
    (hf : db.stories.find? (fun r => r.webflowItemId = payloadId) = some r0) :
    CmsSync.upsertPodcast nowIso freshId payloadId fd db =
      { db with
        stories := db.stories.map (CmsSync.updateStoryRow nowIso fd c payloadId),
        storyTags := db.storyTags.filter (fun j => ¬ (j.storyId = r0.id)) ++
          (resolvedTagIds db.tags (fd.episodeTags.getD [])).map
            (fun tid => { storyId := r0.id, tagId := tid }) } := by
  unfold CmsSync.upsertPodcast
  simp only [hc, hf, CmsSync.syncPodcastTagJunction_eq]

lemma filter_neq_of_replaced (pid : String) (J : List StoryTagRow) (tids : List String) :
    (J.filter (fun j => ¬ (j.storyId = pid)) ++
        tids.map (fun tid => ({ storyId := pid, tagId := tid } : StoryTagRow))).filter
      (fun j => ¬ (j.storyId = pid)) = J.filter (fun j => ¬ (j.storyId = pid)) := by
  rw [List.filter_append]
  rw [List.filter_eq_self.mpr (fun a ha => (List.mem_filter.mp ha).2)]
  rw [show (tids.map (fun tid => ({ storyId := pid, tagId := tid } : StoryTagRow))).filter
        (fun j => ¬ (j.storyId = pid)) = [] from
      List.filter_eq_nil_iff.mpr
        (by intro a ha; rcases List.mem_map.mp ha with ⟨tid, _, rfl⟩; simp)]
  simp

/-- C8 (confirmed): under the schema's uniqueness of the external id (at
most one row per `webflow_item_id`), applying the same mapped upsert
twice in a row (same field bag, same time) leaves the store exactly as
after the first application — one row for that external id with
identical field values, local id and creation timestamp untouched by the
second application, and a non-duplicated junction row set. -/
theorem claim8_upsert_idempotent
    (nowIso freshId1 freshId2 payloadId : String) (fd : FieldData) (db : Db) (c : Coords)
    (hc : CmsSync.parseCoordinates fd = some c)
    (huniq : (db.stories.filter (fun r => r.webflowItemId = payloadId)).length ≤ 1) :
    CmsSync.upsertPodcast nowIso freshId2 payloadId fd
        (CmsSync.upsertPodcast nowIso freshId1 payloadId fd db) =
      CmsSync.upsertPodcast nowIso freshId1 payloadId fd db ∧
    ((CmsSync.upsertPodcast nowIso freshId1 payloadId fd db).stories.filter
        (fun r => r.webflowItemId = payloadId)).length = 1 := by
  rcases hf : db.stories.find? (fun r => r.webflowItemId = payloadId) with _ | r0
  · -- no row matched: the first application inserts, the second updates in place
    have hall : ∀ r ∈ db.stories, ¬ (r.webflowItemId = payloadId) := by
      intro r hr
      have := List.find?_eq_none.mp hf r hr
      simpa using this
    have hfilnil : db.stories.filter (fun r => r.webflowItemId = payloadId) = [] :=
      List.filter_eq_nil_iff.mpr (fun a ha => by simpa using hall a ha)
    have e1 := upsertPodcast_insert nowIso freshId1 payloadId fd db c hc hf
    have hf2 : (CmsSync.upsertPodcast nowIso freshId1 payloadId fd db).stories.find?
        (fun r => r.webflowItemId = payloadId) =
        some (CmsSync.newStoryRow nowIso freshId1 payloadId fd c) := by
      rw [e1]
      dsimp only
      rw [List.find?_append, hf]
      simp [CmsSync.newStoryRow]
    have e2 := upsertPodcast_update nowIso freshId2 payloadId fd _ c
      (CmsSync.newStoryRow nowIso freshId1 payloadId fd c) hc hf2
    have hid : (CmsSync.newStoryRow nowIso freshId1 payloadId fd c).id = freshId1 := rfl
    rw [hid] at e2
    refine ⟨?_, ?_⟩
    · rw [e2, e1]
      dsimp only
      simp only [Db.mk.injEq]
      refine ⟨?_, trivial, trivial, trivial, ?_, trivial, trivial⟩
      · rw [List.map_append]
        congr 1
        · calc db.stories.map (CmsSync.updateStoryRow nowIso fd c payloadId)
              = db.stories.map id :=
                List.map_congr_left (fun a ha => by
                  rw [updateStoryRow_of_not nowIso fd c payloadId a (hall a ha)]; rfl)
            _ = db.stories := List.map_id _
        · simp [updateStoryRow_newStoryRow]
      · rw [filter_neq_of_replaced]
    · rw [e1]
      dsimp only
      rw [List.filter_append, hfilnil]
      simp [CmsSync.newStoryRow]
  · -- a row matched: both applications update in place
    have hp0 : r0.webflowItemId = payloadId := by
      have := List.find?_some hf
      simpa using this
    have hmem : r0 ∈ db.stories := List.mem_of_find?_eq_some hf
    have e1 := upsertPodcast_update nowIso freshId1 payloadId fd db c r0 hc hf
    have hpu : ((fun r : StoryRow => decide (r.webflowItemId = payloadId)) ∘
        CmsSync.updateStoryRow nowIso fd c payloadId) =
        (fun r : StoryRow => decide (r.webflowItemId = payloadId)) := by
      funext r
      simp [updateStoryRow_webflowItemId]
    have hf2 : (CmsSync.upsertPodcast nowIso freshId1 payloadId fd db).stories.find?
        (fun r => r.webflowItemId = payloadId) =
        some (CmsSync.updateStoryRow nowIso fd c payloadId r0) := by
      rw [e1]
      dsimp only
      rw [List.find?_map, hpu, hf]
      rfl
    have e2 := upsertPodcast_update nowIso freshId2 payloadId fd _ c _ hc hf2
    rw [updateStoryRow_id] at e2
    refine ⟨?_, ?_⟩
    · rw [e2, e1]
      dsimp only
      simp only [Db.mk.injEq]
      refine ⟨?_, trivial, trivial, trivial, ?_, trivial, trivial⟩
      · rw [List.map_map]
        exact List.map_congr_left (fun a _ => updateStoryRow_idem nowIso fd c payloadId a)
      · rw [filter_neq_of_replaced]
    · rw [e1]
      dsimp only
      rw [List.filter_map, hpu, List.length_map]
      have hne : db.stories.filter (fun r => r.webflowItemId = payloadId) ≠ [] := by
        intro hnil
        have hmemf : r0 ∈ db.stories.filter (fun r => r.webflowItemId = payloadId) :=
          List.mem_filter.mpr ⟨hmem, by simp [hp0]⟩
        rw [hnil] at hmemf
        exact absurd hmemf (List.not_mem_nil r0)
      have hge := List.length_pos.mpr hne
      omega

/-- Witness for C8: inserting a fresh story with one tag, then applying
the identical upsert again. -/
theorem claim8_upsert_idempotent_witness :
    CmsSync.upsertPodcast "t1" "f2" "e1"
        { name := "Forest", locationCoordinates := some "52.01, 4.35",
          episodeTags := some ["w1"] }
        (CmsSync.upsertPodcast "t1" "f1" "e1"
          { name := "Forest", locationCoordinates := some "52.01, 4.35",
            episodeTags := some ["w1"] }
          { tags := [{ id := "t1", webflowItemId := "w1", name := "Nature", slug := none }] }) =
      CmsSync.upsertPodcast "t1" "f1" "e1"
        { name := "Forest", locationCoordinates := some "52.01, 4.35",
          episodeTags := some ["w1"] }
        { tags := [{ id := "t1", webflowItemId := "w1", name := "Nature", slug := none }] } ∧
    ((CmsSync.upsertPodcast "t1" "f1" "e1"
        { name := "Forest", locationCoordinates := some "52.01, 4.35",
          episodeTags := some ["w1"] }
        { tags := [{ id := "t1", webflowItemId := "w1", name := "Nature", slug := none }] }).stories.filter
      (fun r => r.webflowItemId = "e1")).length = 1 :=
  claim8_upsert_idempotent "t1" "f1" "f2" "e1"
    { name := "Forest", locationCoordinates := some "52.01, 4.35", episodeTags := some ["w1"] }
    { tags := [{ id := "t1", webflowItemId := "w1", name := "Nature", slug := none }] }
    ⟨⟨5201, -2⟩, ⟨435, -2⟩⟩ (by decide) (by decide)
